import Mathlib

/-!
Shallow embedding of the SWIFT fraud-scoring core
(`src/project/agents/workflow_agents/base_agents.py` and
`src/project/agents/parallelization.py`) and verification of the
specification's claims about it.

Conventions of the embedding:
* Python `float` values are modelled as exact rationals (`ℚ`); the
  numeric literals of the source (`0.4`, `0.2`, ...) are translated to
  their exact decimal values.
* Python dicts used as records become structures with `Option` fields:
  `none` models an absent key, and for `remittance_info` (whose value may
  itself be `None`) `some none` models a present-but-null value.
* Fallible operations (`float(...)`, `message['message_id']`) return
  `Option`; a caught exception is the `none` branch.
* The only nondeterminism of the coordinator — whether the future of a
  given (record, scorer) slot yields a result within the 5-second wait —
  is abstracted by a Boolean availability function `avail : String → ℕ →
  Bool` (keyed by message id and scorer index).
-/

namespace SwiftFraud

/-- Containment of a pattern as a contiguous run at the front of a
character list: `strPrefixL pat s` is the model of Python's prefix test
used below to model the substring operator `in`. -/
def strPrefixL : List Char → List Char → Bool
  | [], _ => true
  | _ :: _, [] => false
  | a :: p, b :: s => a == b && strPrefixL p s

/-- `strContainsL pat s` : does `pat` occur contiguously anywhere in `s`?
Models Python's `pat in s` on strings (note `"" in s` is `True`). -/
def strContainsL (pat : List Char) : List Char → Bool
  | [] => pat.isEmpty
  | s@(_ :: t) => strPrefixL pat s || strContainsL pat t

/-- Python's `pat in hay` substring test. -/
def strContainsStr (hay pat : String) : Bool :=
  strContainsL pat.toList hay.toList

/-- Python's `str.upper()` (ASCII, which covers every string the source
builds). -/
def upperStr (s : String) : String :=
  String.mk (s.toList.map Char.toUpper)

/-- Python's `str.lower()`. -/
def lowerStr (s : String) : String :=
  String.mk (s.toList.map Char.toLower)

/-- Split a character list at every `'.'` — the behaviour of Python's
`str.split('.')` (an empty string yields one empty field). -/
def splitDots : List Char → List (List Char)
  | [] => [[]]
  | c :: t =>
      if c == '.' then [] :: splitDots t
      else
        match splitDots t with
        | [] => [[c]]
        | h :: r => (c :: h) :: r

/-- Python's two-argument `min` (returns the first argument on ties), used
as `min(risk_score, 1.0)` by every scorer. -/
def pymin (a b : ℚ) : ℚ := if a ≤ b then a else b

/-- An input SWIFT message dict. `none` = key absent.  `remittance_info`
may be present with value `None`, hence the nested `Option`. -/
structure Message where
  message_id : Option String
  amount : Option String
  sender_bic : Option String
  receiver_bic : Option String
  remittance_info : Option (Option String)
deriving DecidableEq

/-- The result dict produced by one agent's `analyze`; `msg_id` is the
`message_id` key attached afterwards by
`ParallelizationPattern._process_message` (absent, i.e. `none`, on a dict
fresh out of `analyze`). -/
structure ScoreResult where
  agent : String
  risk_score : ℚ
  fraud_reasons : List String
  msg_id : Option String := none
deriving DecidableEq

/-! ### FraudAmountDetectionAgent -/

/-- The join over the filtered characters of the amount string: keep a
character exactly when it is a decimal digit or a dot. -/
def extractNumChars (s : String) : String :=
  String.mk (s.toList.filter (fun c => c.isDigit || c == '.'))

/-- Value of a list of decimal digit characters (empty list ↦ 0). -/
def digitsVal (l : List Char) : ℕ :=
  l.foldl (fun acc c => 10 * acc + (c.toNat - 48)) 0

/-- Python's `float` parser restricted to strings made of digits and dots
(the only shape `extractNumChars` can produce): it succeeds exactly when
there is at most one dot and at least one digit. -/
def parsePyFloat (s : String) : Option ℚ :=
  match splitDots s.toList with
  | [a] => if a.isEmpty then none else some (digitsVal a : ℚ)
  | [a, b] =>
      if a.isEmpty && b.isEmpty then none
      else some ((digitsVal a : ℚ) + (digitsVal b : ℚ) / (10 : ℚ) ^ b.length)
  | _ => none

/-- Rendering of the parsed magnitude inside reason strings (the source
interpolates the Python float; its exact `repr` is approximated — no
claim depends on this text). -/
def pyFloatRepr (q : ℚ) : String :=
  if q.den = 1 then toString q.num ++ ".0"
  else toString q.num ++ "/" ++ toString q.den

namespace FraudAmountDetectionAgent

/-- `FraudAmountDetectionAgent.analyze`.  A parse failure (the `except`
branch) returns score 0 with no reasons.  `amount % 1000 == 0` on an
exact rational is "`amount/1000` is an integer", and `amount % 1 != 0` is
"`amount` has a non-integer value". -/
def analyze (m : Message) : ScoreResult :=
  match parsePyFloat (extractNumChars (m.amount.getD "0")) with
  | none => { agent := "FraudAmountDetectionAgent", risk_score := 0, fraud_reasons := [] }
  | some amount =>
      let score : ℚ :=
        (if 10000 < amount then 0.3 else 0) +
        (if (amount / 1000).den = 1 ∧ 0 < amount then 0.2 else 0) +
        (if 100000 < amount ∧ amount.den ≠ 1 then 0.1 else 0)
      let reasons : List String :=
        (if 10000 < amount then ["High amount transaction: " ++ pyFloatRepr amount] else []) ++
        (if (amount / 1000).den = 1 ∧ 0 < amount then
          ["Suspiciously round amount: " ++ pyFloatRepr amount] else []) ++
        (if 100000 < amount ∧ amount.den ≠ 1 then
          ["Large amount with unusual decimal precision"] else [])
      { agent := "FraudAmountDetectionAgent", risk_score := pymin score 1,
        fraud_reasons := reasons }

end FraudAmountDetectionAgent

/-! ### FraudPatternDetectionAgent -/

def highRiskPatterns : List String := ["TEST", "FAKE", "DEMO", "999", "000000"]

def suspiciousKeywords : List String := ["urgent", "immediately", "secret", "confidential"]

/-- The flagged substrings that fire: one entry per pattern such that the
pattern occurs in the upper-cased sender code **or** the upper-cased
receiver code (the source's single `if ... in ... or ... in ...` per
pattern). -/
def bicPatternHits (sb rb : String) : List String :=
  highRiskPatterns.filter
    (fun p => strContainsStr (upperStr sb) p || strContainsStr (upperStr rb) p)

/-- The suspicious keywords found in the lower-cased remittance text. -/
def keywordHits (remit : String) : List String :=
  suspiciousKeywords.filter (fun k => strContainsStr (lowerStr remit) k)

/-- `message.get('remittance_info', '') or ''`: an absent key and a
present-but-`None` (or empty) value all collapse to `""`. -/
def getRemittance (m : Message) : String :=
  match m.remittance_info with
  | none => ""
  | some none => ""
  | some (some s) => s

namespace FraudPatternDetectionAgent

/-- `FraudPatternDetectionAgent.analyze`: +0.4 per flagged substring found
in either BIC, +0.5 if sender and receiver BIC are equal and non-empty,
+0.2 per suspicious keyword in the remittance text, clamped to 1. -/
def analyze (m : Message) : ScoreResult :=
  let sb := m.sender_bic.getD ""
  let rb := m.receiver_bic.getD ""
  let hits := bicPatternHits sb rb
  let kws := keywordHits (getRemittance m)
  let score : ℚ :=
    (0.4 : ℚ) * hits.length + (if sb ≠ "" ∧ sb = rb then (0.5 : ℚ) else 0) +
      (0.2 : ℚ) * kws.length
  let reasons : List String :=
    hits.map (fun p => "Test/fake pattern detected in BIC: " ++ p) ++
    (if sb ≠ "" ∧ sb = rb then ["Same sender and receiver BIC"] else []) ++
    kws.map (fun k => "Suspicious keyword in remittance: " ++ k)
  { agent := "FraudPatternDetectionAgent", risk_score := pymin score 1,
    fraud_reasons := reasons }

end FraudPatternDetectionAgent

/-! ### FraudGeographicRiskAgent -/

def highRiskCountries : List String :=
  ["IR", "KP", "SY", "CU", "VE", "RU", "BY", "AF", "IQ", "LB",
   "SD", "ZW", "MM", "YE", "SO", "CD", "CG", "HT", "TG", "GN"]

def mediumRiskCountries : List String :=
  ["CN", "HK", "SG", "AE", "SA", "QA", "KW", "BH", "OM", "JO",
   "TR", "EG", "MA", "TN", "DZ", "LY", "PK", "BD", "LK", "NP"]

/-- `bic[4:6].upper() if len(bic) >= 6 else ''`. -/
def extractCountry (bic : String) : String :=
  if 6 ≤ bic.length then upperStr (String.mk ((bic.toList.drop 4).take 2)) else ""

/-- The "unusual country combination" condition: both codes non-empty and
exactly one side high-risk while the other side is in neither risk set. -/
def geoBonus (sc rc : String) : Bool :=
  (sc != "") && (rc != "") &&
    ((highRiskCountries.contains sc && !highRiskCountries.contains rc
        && !mediumRiskCountries.contains rc) ||
     (highRiskCountries.contains rc && !highRiskCountries.contains sc
        && !mediumRiskCountries.contains sc))

/-- The unclamped geographic risk total, term by term in source order. -/
def geoScoreRaw (sc rc : String) : ℚ :=
  (if highRiskCountries.contains sc then (0.4 : ℚ) else 0) +
  (if highRiskCountries.contains rc then (0.4 : ℚ) else 0) +
  (if mediumRiskCountries.contains sc then (0.2 : ℚ) else 0) +
  (if mediumRiskCountries.contains rc then (0.2 : ℚ) else 0) +
  (if geoBonus sc rc then (0.3 : ℚ) else 0)

/-- The geographic reasons, in the order the source appends them. -/
def geoReasons (sc rc : String) : List String :=
  (if highRiskCountries.contains sc then ["High-risk sender country: " ++ sc] else []) ++
  (if highRiskCountries.contains rc then ["High-risk receiver country: " ++ rc] else []) ++
  (if mediumRiskCountries.contains sc then ["Medium-risk sender country: " ++ sc] else []) ++
  (if mediumRiskCountries.contains rc then ["Medium-risk receiver country: " ++ rc] else []) ++
  (if geoBonus sc rc then ["Unusual risk level combination: " ++ sc ++ " ? " ++ rc] else [])

namespace FraudGeographicRiskAgent

/-- `FraudGeographicRiskAgent.analyze`. -/
def analyze (m : Message) : ScoreResult :=
  let sc := extractCountry (m.sender_bic.getD "")
  let rc := extractCountry (m.receiver_bic.getD "")
  { agent := "FraudGeographicRiskAgent", risk_score := pymin (geoScoreRaw sc rc) 1,
    fraud_reasons := geoReasons sc rc }

end FraudGeographicRiskAgent

/-! ### FraudAggAgent -/

structure AggregateVerdict where
  is_fraudulent : Bool
  confidence : ℚ
  total_risk_score : ℚ
  aggregated_reasons : List String
deriving DecidableEq

/-- `self.threshold = 0.5`. -/
def fraudThreshold : ℚ := 0.5

/-- Round to the nearest integer, ties to even — the rounding of Python's
built-in `round` (modelled on the exact rational value). -/
def roundHalfEven (q : ℚ) : ℤ :=
  let f := q.floor
  let r := q - (f : ℚ)
  if r < 1 / 2 then f
  else if 1 / 2 < r then f + 1
  else if f % 2 = 0 then f else f + 1

/-- Python's `round(q, d)`. -/
def pyRound (q : ℚ) (d : ℕ) : ℚ :=
  (roundHalfEven (q * (10 : ℚ) ^ d) : ℚ) / (10 : ℚ) ^ d

namespace FraudAggAgent

/-- `FraudAggAgent.aggregate_results`: empty input yields the fixed
non-fraud verdict; otherwise average the scores, compare against the 0.5
threshold, round, and accumulate the prefixed reasons with the source's
left-to-right loop. -/
def aggregate_results (rs : List ScoreResult) : AggregateVerdict :=
  if rs.isEmpty then
    { is_fraudulent := false, confidence := 0, total_risk_score := 0,
      aggregated_reasons := [] }
  else
    let total := rs.foldl (fun acc r => acc + r.risk_score) 0
    let avg := total / (rs.length : ℚ)
    let reasons := rs.foldl
      (fun acc r => acc ++ r.fraud_reasons.map (fun s => "[" ++ r.agent ++ "] " ++ s)) []
    { is_fraudulent := decide (fraudThreshold ≤ avg),
      confidence := pyRound (avg * 100) 2,
      total_risk_score := pyRound avg 3,
      aggregated_reasons := reasons }

end FraudAggAgent

/-! ### ParallelizationPattern -/

/-- An input message annotated in place by `process_batch_parallel`. -/
structure AnnotatedMessage extends Message where
  fraud_status : String
  fraud_score : ℚ
  fraud_reasons : List String
  fraud_analysis : List ScoreResult
deriving DecidableEq

/-- The registered scorers, in registration order
(`self.list_of_agents`). -/
def listOfAgents : List (Message → ScoreResult) :=
  [FraudAmountDetectionAgent.analyze,
   FraudPatternDetectionAgent.analyze,
   FraudGeographicRiskAgent.analyze]

/-- `ParallelizationPattern._process_message`: run the agent and attach
the message id.  The scorers of the embedding are total functions, so the
`except` branch of the source (synthetic zero result on an exception
raised inside `analyze`) is unreachable here. -/
def processMessage (m : Message) (agent : Message → ScoreResult) : ScoreResult :=
  { agent m with msg_id := some (m.message_id.getD "unknown") }

/-- The coordinator's per-record collection loop (`future.result(timeout=5)`
inside `try`/`except`): a slot whose future yields a result in time is
appended; a slot that times out (or raises) is skipped — nothing is
appended for it. -/
def recordResults (m : Message) (key : String) (avail : String → ℕ → Bool) :
    List ScoreResult :=
  listOfAgents.enum.filterMap
    (fun p => if avail key p.1 then some (processMessage m p.2) else none)

/-- Python dict assignment `d[k] = v`: an existing key keeps its insertion
position and gets the new value; a new key is appended. -/
def dictInsert (d : List (String × Message)) (k : String) (v : Message) :
    List (String × Message) :=
  if d.any (fun p => p.1 == k) then d.map (fun p => if p.1 == k then (k, v) else p)
  else d ++ [(k, v)]

/-- The submission loop building `future_to_msg`, keyed by
`message['message_id']`: a missing id raises `KeyError` (modelled as
`none`, aborting the batch). -/
def buildDictAux : List (String × Message) → List Message → Option (List (String × Message))
  | d, [] => some d
  | d, m :: rest =>
      match m.message_id with
      | none => none
      | some k => buildDictAux (dictInsert d k m) rest

def buildDict (msgs : List Message) : Option (List (String × Message)) :=
  buildDictAux [] msgs

/-- Annotation of one record from its collected scorer results (the body
of the coordinator's collection loop after the waits). -/
def annotateOne (m : Message) (key : String) (avail : String → ℕ → Bool) :
    AnnotatedMessage :=
  let results := recordResults m key avail
  let agg := FraudAggAgent.aggregate_results results
  { toMessage := m,
    fraud_status := if agg.is_fraudulent then "FRAUDULENT" else "CLEAN",
    fraud_score := agg.confidence,
    fraud_reasons := agg.aggregated_reasons,
    fraud_analysis := results }

/-- `ParallelizationPattern.process_batch_parallel`, with the timing of
the underlying futures abstracted by `avail` (see the module comment):
build the id-keyed dict, then annotate its entries in dict order. -/
def process_batch_parallel (msgs : List Message) (avail : String → ℕ → Bool) :
    Option (List AnnotatedMessage) :=
  (buildDict msgs).map (fun d => d.map (fun p => annotateOne p.2 p.1 avail))

/-- Availability function of a run in which every future delivers in
time. -/
def allAvail : String → ℕ → Bool := fun _ _ => true

/-! ### Concrete inputs used by counterexamples and witnesses -/

/-- A well-formed single message. -/
def msgC1 : Message := ⟨some "M1", some "5 USD", some "AAAABB11", some "CCCCDD22", none⟩

/-- A run in which the future of scorer index 1 (the pattern scorer)
never delivers within the wait. -/
def availC1 : String → ℕ → Bool := fun _ i => i != 1

/-- Two distinct messages sharing one message id. -/
def msgDupA : Message := ⟨some "DUP", some "5 USD", none, none, none⟩

def msgDupB : Message := ⟨some "DUP", some "6 USD", none, none, none⟩

/-- A message with no message id key. -/
def msgNoId : Message := ⟨none, some "7 USD", none, none, none⟩

/-- A batch with distinct present ids. -/
def wMsgs : List Message :=
  [⟨some "A1", some "5 USD", none, none, none⟩,
   ⟨some "B2", some "6 USD", none, none, none⟩]

/-- Sender and receiver codes both containing the flagged substring
TEST. -/
def msgC2 : Message := ⟨some "M2", none, some "TESTAA11", some "TESTBB22", none⟩

def msgC2W : Message := ⟨some "W2", none, some "TESTAA11", some "XXTESTYY", none⟩

/-- High-risk sender country (IR), receiver BIC too short to carry a
country code. -/
def msgC7 : Message := ⟨some "M7", none, some "AAAAIR", some "AB", none⟩

/-- High-risk sender country (IR), receiver country (US) present and in
neither risk set. -/
def msgC7W : Message := ⟨some "W7", none, some "AAAAIR", some "AAAAUS", none⟩

/-! ## General lemmas about the embedding -/

lemma pymin_nonneg {a b : ℚ} (ha : 0 ≤ a) (hb : 0 ≤ b) : 0 ≤ pymin a b := by
  unfold pymin; split <;> assumption

lemma pymin_le_right {a b : ℚ} : pymin a b ≤ b := by
  unfold pymin; split
  · assumption
  · exact le_rfl

lemma pymin_eq_of_le {a b : ℚ} (h : a ≤ b) : pymin a b = a := if_pos h

/-- The aggregator's score loop is `init +` the sum of the scores. -/
lemma foldl_add_risk (l : List ScoreResult) (init : ℚ) :
    l.foldl (fun acc r => acc + r.risk_score) init
      = init + (l.map ScoreResult.risk_score).sum := by
  induction l generalizing init with
  | nil => simp
  | cons a t ih => simp [ih]; ring

/-- The aggregator's reason loop is `init ++` the concatenation of the
per-result prefixed reason lists. -/
lemma foldl_reasons (l : List ScoreResult) (init : List String) :
    l.foldl
        (fun acc r => acc ++ r.fraud_reasons.map (fun s => "[" ++ r.agent ++ "] " ++ s)) init
      = init ++
        (l.map (fun r => r.fraud_reasons.map (fun s => "[" ++ r.agent ++ "] " ++ s))).flatten := by
  induction l generalizing init with
  | nil => simp
  | cons a t ih => simp [ih]

/-- The string-append data equation (definitional). -/
lemma strAppend_data (a b : String) : (a ++ b).data = a.data ++ b.data := rfl

lemma strAppend_left_cancel {pre a b : String} (h : pre ++ a = pre ++ b) : a = b := by
  have h0 := congrArg String.data h
  rw [strAppend_data, strAppend_data] at h0
  have h3 : a.data = b.data := List.append_cancel_left h0
  cases a with
  | mk da =>
    cases b with
    | mk db => exact congrArg String.mk (by simpa using h3)

/-- Counting an element of the form `pre ++ x` in a list mapped through
prepending `pre` counts `x` in the original list. -/
lemma count_map_prepend (pre x : String) (l : List String) :
    (l.map (fun q => pre ++ q)).count (pre ++ x) = l.count x := by
  induction l with
  | nil => rfl
  | cons a t ih =>
      by_cases hxa : x = a
      · subst hxa
        simp [List.count_cons, ih]
      · have hne : ¬ pre ++ x = pre ++ a := fun hc => hxa (strAppend_left_cancel hc)
        simp [List.count_cons, ih, hxa, hne]

lemma bicReason_head (p : String) :
    ("Test/fake pattern detected in BIC: " ++ p).data.head? = some 'T' := rfl

lemma kwReason_head (k : String) :
    ("Suspicious keyword in remittance: " ++ k).data.head? = some 'S' := rfl

/-- A BIC-pattern reason string is never the same-BIC reason string. -/
lemma bicReason_ne_same (p : String) :
    ("Test/fake pattern detected in BIC: " ++ p) ≠ "Same sender and receiver BIC" := by
  intro h
  have h2 : ("Test/fake pattern detected in BIC: " ++ p).data.head? =
      ("Same sender and receiver BIC" : String).data.head? := by rw [h]
  rw [bicReason_head] at h2
  exact absurd h2 (by decide)

/-- A BIC-pattern reason string is never a keyword reason string. -/
lemma bicReason_ne_kw (p k : String) :
    ("Test/fake pattern detected in BIC: " ++ p) ≠
      ("Suspicious keyword in remittance: " ++ k) := by
  intro h
  have h2 : ("Test/fake pattern detected in BIC: " ++ p).data.head? =
      ("Suspicious keyword in remittance: " ++ k).data.head? := by rw [h]
  rw [bicReason_head, kwReason_head] at h2
  exact absurd h2 (by decide)

/-- Inserting a key not present in the dict appends it. -/
lemma dictInsert_of_fresh (d : List (String × Message)) (k : String) (v : Message)
    (h : ∀ p ∈ d, p.1 ≠ k) : dictInsert d k v = d ++ [(k, v)] := by
  have hfalse : d.any (fun p => p.1 == k) = false := by
    rw [List.any_eq_false]
    intro p hp
    simpa using h p hp
  simp [dictInsert, hfalse]

/-- With present, pairwise distinct ids, the submission loop builds the
dict in input order. -/
lemma buildDictAux_of_nodup :
    ∀ (msgs : List Message) (d : List (String × Message)),
      (∀ m ∈ msgs, m.message_id.isSome = true) →
      (msgs.filterMap Message.message_id).Nodup →
      (∀ p ∈ d, ∀ k ∈ msgs.filterMap Message.message_id, p.1 ≠ k) →
      buildDictAux d msgs =
        some (d ++ msgs.map (fun m => (m.message_id.getD "unknown", m)))
  | [], d, _, _, _ => by simp [buildDictAux]
  | m :: rest, d, h1, h2, hd => by
      obtain ⟨k, hk⟩ := Option.isSome_iff_exists.mp (h1 m (List.mem_cons_self m rest))
      have hkeys : (m :: rest).filterMap Message.message_id
          = k :: rest.filterMap Message.message_id := by
        simp [List.filterMap_cons, hk]
      rw [hkeys] at h2 hd
      have hknotin : k ∉ rest.filterMap Message.message_id := (List.nodup_cons.mp h2).1
      have h2r : (rest.filterMap Message.message_id).Nodup := (List.nodup_cons.mp h2).2
      have hfresh : ∀ p ∈ d, p.1 ≠ k := fun p hp => hd p hp k (List.mem_cons_self _ _)
      have hstep : buildDictAux d (m :: rest) = buildDictAux (dictInsert d k m) rest := by
        simp [buildDictAux, hk]
      rw [hstep, dictInsert_of_fresh d k m hfresh,
        buildDictAux_of_nodup rest (d ++ [(k, m)])
          (fun x hx => h1 x (List.mem_cons_of_mem _ hx)) h2r ?_]
      · simp [hk]
      · intro p hp kr hkr
        rcases List.mem_append.mp hp with hpd | hpk
        · exact hd p hpd kr (List.mem_cons_of_mem _ hkr)
        · have hpk2 : p = (k, m) := by simpa using hpk
          subst hpk2
          intro heq
          apply hknotin
          have hkk : k = kr := heq
          rw [hkk]
          exact hkr

/-- The amount scorer's score is within `[0, 1]`. -/
lemma amount_risk_bounds (m : Message) :
    0 ≤ (FraudAmountDetectionAgent.analyze m).risk_score ∧
      (FraudAmountDetectionAgent.analyze m).risk_score ≤ 1 := by
  unfold FraudAmountDetectionAgent.analyze
  split
  · norm_num
  · refine ⟨pymin_nonneg ?_ (by norm_num), pymin_le_right⟩
    split_ifs <;> norm_num

/-- The pattern scorer's score is within `[0, 1]`. -/
lemma pattern_risk_bounds (m : Message) :
    0 ≤ (FraudPatternDetectionAgent.analyze m).risk_score ∧
      (FraudPatternDetectionAgent.analyze m).risk_score ≤ 1 := by
  unfold FraudPatternDetectionAgent.analyze
  refine ⟨pymin_nonneg ?_ (by norm_num), pymin_le_right⟩
  have h1 : (0 : ℚ) ≤ (0.4 : ℚ) * (bicPatternHits (m.sender_bic.getD "")
      (m.receiver_bic.getD "")).length := by positivity
  have h2 : (0 : ℚ) ≤ (0.2 : ℚ) * (keywordHits (getRemittance m)).length := by positivity
  have h3 : (0 : ℚ) ≤ (if m.sender_bic.getD "" ≠ "" ∧ m.sender_bic.getD "" = m.receiver_bic.getD ""
      then (0.5 : ℚ) else 0) := by split_ifs <;> norm_num
  exact add_nonneg (add_nonneg h1 h3) h2

/-- The geographic scorer's score is within `[0, 1]`. -/
lemma geo_risk_bounds (m : Message) :
    0 ≤ (FraudGeographicRiskAgent.analyze m).risk_score ∧
      (FraudGeographicRiskAgent.analyze m).risk_score ≤ 1 := by
  unfold FraudGeographicRiskAgent.analyze
  refine ⟨pymin_nonneg ?_ (by norm_num), pymin_le_right⟩
  unfold geoScoreRaw
  split_ifs <;> norm_num

/-! ## Claims -/

/-- Claim C9: `aggregate_results` applied to the empty list of results
returns exactly the verdict with `is_fraudulent = false`, `confidence =
0`, `total_risk_score = 0` and no aggregated reasons, without error. -/
theorem claim_C9 :
    FraudAggAgent.aggregate_results [] =
      { is_fraudulent := false, confidence := 0, total_risk_score := 0,
        aggregated_reasons := [] } := rfl

/-- Claim C4: for every non-empty list of score results, the aggregate
verdict classifies as fraudulent exactly when the average score reaches
0.5 (inclusive), reports `confidence` as the average times 100 rounded to
2 decimal places, and `total_risk_score` as the average rounded to 3
decimal places. -/
theorem claim_C4 (rs : List ScoreResult) (h : rs ≠ []) :
    ((FraudAggAgent.aggregate_results rs).is_fraudulent = true ↔
      (0.5 : ℚ) ≤ (rs.map ScoreResult.risk_score).sum / (rs.length : ℚ)) ∧
    (FraudAggAgent.aggregate_results rs).confidence =
      pyRound ((rs.map ScoreResult.risk_score).sum / (rs.length : ℚ) * 100) 2 ∧
    (FraudAggAgent.aggregate_results rs).total_risk_score =
      pyRound ((rs.map ScoreResult.risk_score).sum / (rs.length : ℚ)) 3 := by
  unfold FraudAggAgent.aggregate_results
  rw [if_neg (by simp [h])]
  refine ⟨?_, ?_, ?_⟩ <;> simp [foldl_add_risk, fraudThreshold]

/-- Claim C4 witness: a concrete two-result aggregation. -/
theorem claim_C4_witness :
    ([(⟨"A", 0.6, ["x"], none⟩ : ScoreResult), ⟨"B", 0.5, [], none⟩] ≠
        ([] : List ScoreResult)) ∧
    (((FraudAggAgent.aggregate_results
          [(⟨"A", 0.6, ["x"], none⟩ : ScoreResult), ⟨"B", 0.5, [], none⟩]).is_fraudulent = true ↔
        (0.5 : ℚ) ≤
          (([(⟨"A", 0.6, ["x"], none⟩ : ScoreResult), ⟨"B", 0.5, [], none⟩].map
            ScoreResult.risk_score).sum) /
            (([(⟨"A", 0.6, ["x"], none⟩ : ScoreResult), ⟨"B", 0.5, [], none⟩].length : ℚ))) ∧
      (FraudAggAgent.aggregate_results
          [(⟨"A", 0.6, ["x"], none⟩ : ScoreResult), ⟨"B", 0.5, [], none⟩]).confidence =
        pyRound
          ((([(⟨"A", 0.6, ["x"], none⟩ : ScoreResult), ⟨"B", 0.5, [], none⟩].map
            ScoreResult.risk_score).sum) /
            (([(⟨"A", 0.6, ["x"], none⟩ : ScoreResult), ⟨"B", 0.5, [], none⟩].length : ℚ)) * 100) 2 ∧
      (FraudAggAgent.aggregate_results
          [(⟨"A", 0.6, ["x"], none⟩ : ScoreResult), ⟨"B", 0.5, [], none⟩]).total_risk_score =
        pyRound
          ((([(⟨"A", 0.6, ["x"], none⟩ : ScoreResult), ⟨"B", 0.5, [], none⟩].map
            ScoreResult.risk_score).sum) /
            (([(⟨"A", 0.6, ["x"], none⟩ : ScoreResult), ⟨"B", 0.5, [], none⟩].length : ℚ))) 3) :=
  ⟨by simp, claim_C4 [⟨"A", 0.6, ["x"], none⟩, ⟨"B", 0.5, [], none⟩] (by simp)⟩

/-- Claim C5: for every list of score results, the aggregated reasons are
exactly the concatenation, in input order, of each result's reasons, each
prefixed with its scorer's name in brackets — nothing dropped, reordered,
duplicated or added. -/
theorem claim_C5 (rs : List ScoreResult) :
    (FraudAggAgent.aggregate_results rs).aggregated_reasons =
      (rs.map (fun r => r.fraud_reasons.map (fun s => "[" ++ r.agent ++ "] " ++ s))).flatten := by
  unfold FraudAggAgent.aggregate_results
  split
  · next hemp =>
    simp only [List.isEmpty_iff] at hemp
    simp [hemp]
  · simpa using foldl_reasons rs []

/-- Claim C6: on every input record, each of the three scorers returns a
risk score in the closed interval `[0, 1]`. -/
theorem claim_C6 (m : Message) :
    (0 ≤ (FraudAmountDetectionAgent.analyze m).risk_score ∧
      (FraudAmountDetectionAgent.analyze m).risk_score ≤ 1) ∧
    (0 ≤ (FraudPatternDetectionAgent.analyze m).risk_score ∧
      (FraudPatternDetectionAgent.analyze m).risk_score ≤ 1) ∧
    (0 ≤ (FraudGeographicRiskAgent.analyze m).risk_score ∧
      (FraudGeographicRiskAgent.analyze m).risk_score ≤ 1) :=
  ⟨amount_risk_bounds m, pattern_risk_bounds m, geo_risk_bounds m⟩

/-- Claim C8: when the amount field is absent, empty, or yields no
parseable number after keeping only digit and dot characters, the amount
scorer returns score 0 with no reasons (and, being a total function,
raises nothing). -/
theorem claim_C8 (m : Message)
    (h : m.amount = none ∨ m.amount = some "" ∨
        parsePyFloat (extractNumChars (m.amount.getD "0")) = none) :
    FraudAmountDetectionAgent.analyze m =
      { agent := "FraudAmountDetectionAgent", risk_score := 0, fraud_reasons := [] } := by
  rcases h with h | h | h
  · have hp : parsePyFloat (extractNumChars ((none : Option String).getD "0"))
        = some ((0 : ℕ) : ℚ) := rfl
    unfold FraudAmountDetectionAgent.analyze
    rw [h, hp]
    norm_num [pymin]
  · have hp : parsePyFloat (extractNumChars ((some "" : Option String).getD "0")) = none := rfl
    unfold FraudAmountDetectionAgent.analyze
    rw [h, hp]
  · unfold FraudAmountDetectionAgent.analyze
    rw [h]

/-- Claim C8 witness: an amount with two dots fails to parse and scores
zero with no reasons. -/
theorem claim_C8_witness :
    ((⟨some "W", some "1.2.3 USD", none, none, none⟩ : Message).amount = none ∨
      (⟨some "W", some "1.2.3 USD", none, none, none⟩ : Message).amount = some "" ∨
      parsePyFloat (extractNumChars
        ((⟨some "W", some "1.2.3 USD", none, none, none⟩ : Message).amount.getD "0")) = none) ∧
    FraudAmountDetectionAgent.analyze ⟨some "W", some "1.2.3 USD", none, none, none⟩ =
      { agent := "FraudAmountDetectionAgent", risk_score := 0, fraud_reasons := [] } :=
  ⟨Or.inr (Or.inr (by decide)),
    claim_C8 ⟨some "W", some "1.2.3 USD", none, none, none⟩ (Or.inr (Or.inr (by decide)))⟩

/-- Claim C10: an absent or null remittance field is treated exactly as
an empty memo: the keyword scan finds nothing (no score, no reasons, no
error) and the result equals that of the same record with an empty memo,
so the BIC-based checks are unaffected. -/
theorem claim_C10 (m : Message)
    (h : m.remittance_info = none ∨ m.remittance_info = some none) :
    FraudPatternDetectionAgent.analyze m =
      FraudPatternDetectionAgent.analyze { m with remittance_info := some (some "") } ∧
    keywordHits (getRemittance m) = [] := by
  have hr : getRemittance m = "" := by rcases h with h | h <;> simp [getRemittance, h]
  have hr2 : getRemittance { m with remittance_info := some (some "") } = "" := rfl
  refine ⟨?_, by rw [hr]; rfl⟩
  unfold FraudPatternDetectionAgent.analyze
  simp only [hr, hr2]

/-- Claim C10 witness: a record with the remittance key absent. -/
theorem claim_C10_witness :
    ((⟨some "W", none, some "TESTAA11", some "BBBBBB22", none⟩ : Message).remittance_info = none ∨
      (⟨some "W", none, some "TESTAA11", some "BBBBBB22", none⟩ : Message).remittance_info =
        some none) ∧
    (FraudPatternDetectionAgent.analyze ⟨some "W", none, some "TESTAA11", some "BBBBBB22", none⟩ =
      FraudPatternDetectionAgent.analyze
        { (⟨some "W", none, some "TESTAA11", some "BBBBBB22", none⟩ : Message) with
          remittance_info := some (some "") } ∧
      keywordHits (getRemittance ⟨some "W", none, some "TESTAA11", some "BBBBBB22", none⟩) = []) :=
  ⟨Or.inl rfl,
    claim_C10 ⟨some "W", none, some "TESTAA11", some "BBBBBB22", none⟩ (Or.inl rfl)⟩


/-- Claim C1 counterexample: with one registered scorer (index 1, the
pattern scorer) failing at the coordinator wait, the record's aggregated
result list has no slot at all for that scorer — only 2 results for 3
registered scorers, refuting the synthetic zero-score slot. -/
theorem claim_C1_counterexample :
    ((process_batch_parallel [msgC1] availC1).getD []).map
        (fun a => a.fraud_analysis.map ScoreResult.agent) =
      [["FraudAmountDetectionAgent", "FraudGeographicRiskAgent"]] ∧
    listOfAgents.length = 3 ∧
    ((process_batch_parallel [msgC1] availC1).getD []).map
        (fun a => a.fraud_analysis.length) ≠ [listOfAgents.length] :=
  ⟨by decide, rfl, by decide⟩

/-- Claim C1 (amended): a (record, scorer) slot that fails at the
coordinator wait is skipped, not replaced by a synthetic zero-score
result: the list handed to the aggregator has exactly one entry per
scorer whose future delivered, so a timed-out scorer is absent from the
aggregation rather than lowering the average. -/
theorem claim_C1 (m : Message) (key : String) (h : m.message_id = some key)
    (avail : String → ℕ → Bool) :
    process_batch_parallel [m] avail = some [annotateOne m key avail] ∧
    (annotateOne m key avail).fraud_analysis.length =
      ((List.range listOfAgents.length).filter (fun i => avail key i)).length := by
  constructor
  · simp [process_batch_parallel, buildDict, buildDictAux, h, dictInsert]
  · have henum : listOfAgents.enum =
        [(0, FraudAmountDetectionAgent.analyze), (1, FraudPatternDetectionAgent.analyze),
         (2, FraudGeographicRiskAgent.analyze)] := rfl
    have hrange : List.range listOfAgents.length = [0, 1, 2] := rfl
    rw [hrange]
    show (recordResults m key avail).length = _
    rw [recordResults, henum]
    cases h0 : avail key 0 <;> cases h1 : avail key 1 <;> cases h2 : avail key 2 <;>
      simp [h0, h1, h2]

/-- Claim C1 witness: the amended statement at a concrete record and a
concrete availability pattern. -/
theorem claim_C1_witness :
    msgC1.message_id = some "M1" ∧
    (process_batch_parallel [msgC1] availC1 = some [annotateOne msgC1 "M1" availC1] ∧
      (annotateOne msgC1 "M1" availC1).fraud_analysis.length =
        ((List.range listOfAgents.length).filter (fun i => availC1 "M1" i)).length) :=
  ⟨rfl, claim_C1 msgC1 "M1" rfl availC1⟩

/-- Claim C3 counterexample: two input records sharing a message id yield
a single annotated output record, and a record without a message id
aborts the batch. -/
theorem claim_C3_counterexample :
    (process_batch_parallel [msgDupA, msgDupB] allAvail).map List.length = some 1 ∧
    [msgDupA, msgDupB].length = 2 ∧
    process_batch_parallel [msgNoId] allAvail = none :=
  ⟨by decide, rfl, by decide⟩

/-- Claim C3 (amended): when every input record carries a message id and
the ids are pairwise distinct, the coordinator returns exactly one
annotated record per input record, in exactly the input order. -/
theorem claim_C3 (msgs : List Message) (avail : String → ℕ → Bool)
    (h1 : ∀ m ∈ msgs, m.message_id.isSome = true)
    (h2 : (msgs.filterMap Message.message_id).Nodup) :
    process_batch_parallel msgs avail =
      some (msgs.map (fun m => annotateOne m (m.message_id.getD "unknown") avail)) := by
  unfold process_batch_parallel buildDict
  rw [buildDictAux_of_nodup msgs [] h1 h2 (by intro p hp; simp at hp)]
  simp [List.map_map]

/-- Claim C3 witness: a concrete two-record batch with distinct ids. -/
theorem claim_C3_witness :
    (∀ m ∈ wMsgs, m.message_id.isSome = true) ∧
    (wMsgs.filterMap Message.message_id).Nodup ∧
    process_batch_parallel wMsgs allAvail =
      some (wMsgs.map (fun m => annotateOne m (m.message_id.getD "unknown") allAvail)) :=
  ⟨by decide, by decide, claim_C3 wMsgs allAvail (by decide) (by decide)⟩

/-- Claim C7 counterexample: sender country IR is high-risk and the
receiver code of a 2-character BIC extracts to the empty string, which is
in neither risk set; the claim then demands the asymmetry bonus
(total 0.7), but the scorer returns 0.4. -/
theorem claim_C7_counterexample :
    highRiskCountries.contains (extractCountry "AAAAIR") = true ∧
    highRiskCountries.contains (extractCountry "AB") = false ∧
    mediumRiskCountries.contains (extractCountry "AB") = false ∧
    (FraudGeographicRiskAgent.analyze msgC7).risk_score = 0.4 ∧
    ((0.4 : ℚ) ≠ 0.7) := by
  refine ⟨rfl, rfl, rfl, ?_, by norm_num⟩
  have h : (FraudGeographicRiskAgent.analyze msgC7).risk_score
      = pymin (geoScoreRaw "IR" "") 1 := rfl
  have h2 : geoScoreRaw "IR" "" = 0.4 := by
    unfold geoScoreRaw
    rw [if_pos (by decide), if_neg (by decide), if_neg (by decide), if_neg (by decide),
      if_neg (by decide)]
    norm_num
  rw [h, h2, pymin_eq_of_le (by norm_num)]

/-- Claim C7 (amended): the +0.3 asymmetry bonus requires both extracted
country codes to be non-empty; for a sender country in the high-risk set
and a receiver country that is non-empty and in neither risk set, the
total score is 0.4 + 0.3 = 0.7. -/
theorem claim_C7 (m : Message)
    (hs : highRiskCountries.contains (extractCountry (m.sender_bic.getD "")) = true)
    (hr1 : highRiskCountries.contains (extractCountry (m.receiver_bic.getD "")) = false)
    (hr2 : mediumRiskCountries.contains (extractCountry (m.receiver_bic.getD "")) = false)
    (hne : extractCountry (m.receiver_bic.getD "") ≠ "") :
    (FraudGeographicRiskAgent.analyze m).risk_score = 0.7 := by
  set sc := extractCountry (m.sender_bic.getD "") with hsc
  set rc := extractCountry (m.receiver_bic.getD "") with hrc
  have hdisj : ∀ c ∈ highRiskCountries, mediumRiskCountries.contains c = false := by decide
  have hsmem : sc ∈ highRiskCountries := List.mem_of_elem_eq_true hs
  have hsm : mediumRiskCountries.contains sc = false := hdisj sc hsmem
  have hrmem1 : rc ∉ highRiskCountries := by
    intro hmem
    have hc : highRiskCountries.contains rc = true := List.elem_eq_true_of_mem hmem
    rw [hr1] at hc
    exact Bool.false_ne_true hc
  have hrmem2 : rc ∉ mediumRiskCountries := by
    intro hmem
    have hc : mediumRiskCountries.contains rc = true := List.elem_eq_true_of_mem hmem
    rw [hr2] at hc
    exact Bool.false_ne_true hc
  have hsmem2 : sc ∉ mediumRiskCountries := by
    intro hmem
    have hc : mediumRiskCountries.contains sc = true := List.elem_eq_true_of_mem hmem
    rw [hsm] at hc
    exact Bool.false_ne_true hc
  have hsne : sc ≠ "" := by
    intro h0
    rw [h0] at hs
    exact absurd hs (by decide)
  have hbonus : geoBonus sc rc = true := by
    simp [geoBonus, hsne, hne, hsmem, hrmem1, hrmem2, hsmem2]
  show pymin (geoScoreRaw sc rc) 1 = 0.7
  have hscore : geoScoreRaw sc rc = 0.7 := by
    unfold geoScoreRaw
    rw [if_pos hs, if_neg (by simp [hrmem1]), if_neg (by simp [hsmem2]),
      if_neg (by simp [hrmem2]), if_pos hbonus]
    norm_num
  rw [hscore, pymin_eq_of_le (by norm_num)]

/-- Claim C7 witness: IR sender, US receiver (in neither set). -/
theorem claim_C7_witness :
    (highRiskCountries.contains (extractCountry (msgC7W.sender_bic.getD "")) = true ∧
      highRiskCountries.contains (extractCountry (msgC7W.receiver_bic.getD "")) = false ∧
      mediumRiskCountries.contains (extractCountry (msgC7W.receiver_bic.getD "")) = false ∧
      extractCountry (msgC7W.receiver_bic.getD "") ≠ "") ∧
    (FraudGeographicRiskAgent.analyze msgC7W).risk_score = 0.7 :=
  ⟨⟨by decide, by decide, by decide, by decide⟩,
    claim_C7 msgC7W (by decide) (by decide) (by decide) (by decide)⟩

/-- Claim C2 counterexample: the substring TEST occurs in both the sender
and the receiver code, yet the pattern scorer emits a single reason for
it and adds 0.4 once, not 0.8. -/
theorem claim_C2_counterexample :
    strContainsStr (upperStr "TESTAA11") "TEST" = true ∧
    strContainsStr (upperStr "TESTBB22") "TEST" = true ∧
    (FraudPatternDetectionAgent.analyze msgC2).fraud_reasons =
      ["Test/fake pattern detected in BIC: TEST"] ∧
    (FraudPatternDetectionAgent.analyze msgC2).risk_score = 0.4 ∧
    ((0.4 : ℚ) ≠ 0.8) := by
  refine ⟨rfl, rfl, by decide, ?_, by norm_num⟩
  have h : (FraudPatternDetectionAgent.analyze msgC2).risk_score
      = pymin ((0.4 : ℚ) * (List.length ["TEST"] : ℚ) +
          (if ("TESTAA11" : String) ≠ "" ∧ ("TESTAA11" : String) = "TESTBB22"
            then (0.5 : ℚ) else 0) +
          (0.2 : ℚ) * ((List.length ([] : List String)) : ℚ)) 1 := rfl
  rw [h, if_neg (by decide)]
  norm_num [pymin]

/-- Claim C2 (amended): a flagged substring contained (case-insensitively)
in the sender code or the receiver code fires once even when present in
both codes: it appears once in the hit list (one +0.4 contribution) and
exactly one reason names it. -/
theorem claim_C2 (m : Message) (p : String)
    (hp : p ∈ highRiskPatterns)
    (hs : strContainsStr (upperStr (m.sender_bic.getD "")) p = true)
    (_hr : strContainsStr (upperStr (m.receiver_bic.getD "")) p = true) :
    (bicPatternHits (m.sender_bic.getD "") (m.receiver_bic.getD "")).count p = 1 ∧
    (FraudPatternDetectionAgent.analyze m).fraud_reasons.count
      ("Test/fake pattern detected in BIC: " ++ p) = 1 := by
  set sb := m.sender_bic.getD "" with hsb
  set rb := m.receiver_bic.getD "" with hrb
  have hone : ∀ x ∈ highRiskPatterns, highRiskPatterns.count x = 1 := by decide
  have hcount : (bicPatternHits sb rb).count p = 1 := by
    unfold bicPatternHits
    rw [List.count_filter (by simp [hs])]
    exact hone p hp
  refine ⟨hcount, ?_⟩
  show ((bicPatternHits sb rb).map (fun q => "Test/fake pattern detected in BIC: " ++ q) ++
      (if sb ≠ "" ∧ sb = rb then ["Same sender and receiver BIC"] else []) ++
      (keywordHits (getRemittance m)).map
        (fun k => "Suspicious keyword in remittance: " ++ k)).count
      ("Test/fake pattern detected in BIC: " ++ p) = 1
  rw [List.count_append, List.count_append, count_map_prepend]
  have hsameZero : (if sb ≠ "" ∧ sb = rb then
      ["Same sender and receiver BIC"] else []).count
      ("Test/fake pattern detected in BIC: " ++ p) = 0 := by
    split
    · exact List.count_eq_zero.mpr (by simp [bicReason_ne_same p])
    · rfl
  have hkwZero : ((keywordHits (getRemittance m)).map
      (fun k => "Suspicious keyword in remittance: " ++ k)).count
      ("Test/fake pattern detected in BIC: " ++ p) = 0 := by
    refine List.count_eq_zero.mpr ?_
    intro hmem
    obtain ⟨k, _, hk⟩ := List.mem_map.mp hmem
    exact bicReason_ne_kw p k hk.symm
  rw [hcount, hsameZero, hkwZero]

/-- Claim C2 witness: TEST present in both codes of a concrete record. -/
theorem claim_C2_witness :
    ("TEST" ∈ highRiskPatterns ∧
      strContainsStr (upperStr (msgC2W.sender_bic.getD "")) "TEST" = true ∧
      strContainsStr (upperStr (msgC2W.receiver_bic.getD "")) "TEST" = true) ∧
    ((bicPatternHits (msgC2W.sender_bic.getD "") (msgC2W.receiver_bic.getD "")).count
        "TEST" = 1 ∧
      (FraudPatternDetectionAgent.analyze msgC2W).fraud_reasons.count
        ("Test/fake pattern detected in BIC: " ++ "TEST") = 1) :=
  ⟨⟨by decide, rfl, rfl⟩, claim_C2 msgC2W "TEST" (by decide) rfl rfl⟩

end SwiftFraud
